import Mathlib

/-!
# Conway's Game of Life donation overlay: verification of the grid engine

Shallow embedding of the cellular-automaton engine of the repository
(`src/unnamed/part_000`, the immune-aware variant, and
`src/src/channels/conways-game-of-life/index.tsx`, the earlier variant).

Modelling conventions:
* A grid is a pair of dimensions plus a total cell function `Int → Int → CellState`.
  The TypeScript code only ever reads or writes the grid behind explicit bounds
  checks (`r >= 0 && r < grid.length && ...`), so the value of the function
  outside the bounds is never consulted by the embedded operations.
* In-place mutation becomes explicit state passing: a mutating routine takes the
  grid (and the tracked-cell accumulator it appends to) and returns the new ones.
* `Math.random()`-driven sampling is modelled by an input stream
  `cand : Nat → Int × Int` of the successive sampled `(startX, startY)` pairs,
  exactly the values the source computes from `Math.random()`.
* `String(Math.floor(x))` on a non-negative number becomes `digitsOf`, the
  base-10 digit list, most significant first.
* The uncapped `do ... while` placement loop of `index.tsx` cannot be written as
  a total function; it is embedded with explicit fuel (`placementLoopV1`), where
  `none` means the loop is still running after the given number of iterations.
-/

namespace ConwayChannel

/-- Cell coordinates, `(row, col)` as in the source. -/
abbrev Cell := Int × Int

/-- The `CellState` enum of the immune-aware variant. The earlier variant lacks
`IMMUNE` but is otherwise identical. -/
inductive CellState where
  | DEAD
  | ALIVE
  | PENDING
  | INITIAL
  | IMMUNE
deriving DecidableEq, Repr

export CellState (DEAD ALIVE PENDING INITIAL IMMUNE)

/-- A finite grid: dimensions plus the cell contents (`GridType` in the source,
with `rows = grid.length` and `cols = grid[0].length`). -/
@[ext]
structure Grid where
  rows : Nat
  cols : Nat
  cell : Int → Int → CellState

/-- `CONFIG.ROWS` in the source. -/
def CONFIG_ROWS : Nat := 55

/-- `CONFIG.COLS` in the source. -/
def CONFIG_COLS : Nat := 182

/-- Write one cell (the embedding of `grid[r][c] = s`). -/
def setCell (g : Grid) (r c : Int) (s : CellState) : Grid :=
  { g with cell := fun i j => if i = r ∧ j = c then s else g.cell i j }

/-- One guarded read of `countLiveNeighbors`: is the cell at `(r, c)` in bounds
and `ALIVE`? Mirrors
`r >= 0 && r < grid.length && c >= 0 && c < grid[0].length && grid[r][c] === CellState.ALIVE`. -/
def isAliveAt (g : Grid) (r c : Int) : Bool :=
  decide (0 ≤ r ∧ r < (g.rows : Int) ∧ 0 ≤ c ∧ c < (g.cols : Int) ∧
    g.cell r c = ALIVE)

/-- `countLiveNeighbors(grid, row, col)`: the double loop over the eight
offsets `(i, j) ∈ {-1,0,1}²  \x7b(0,0)\x7d excluded`, unrolled in loop order. -/
def countLiveNeighbors (g : Grid) (row col : Int) : Nat :=
  (isAliveAt g (row - 1) (col - 1)).toNat + (isAliveAt g (row - 1) col).toNat +
  (isAliveAt g (row - 1) (col + 1)).toNat + (isAliveAt g row (col - 1)).toNat +
  (isAliveAt g row (col + 1)).toNat + (isAliveAt g (row + 1) (col - 1)).toNat +
  (isAliveAt g (row + 1) col).toNat + (isAliveAt g (row + 1) (col + 1)).toNat

/-- `updateGrid(grid)` of the immune-aware variant: snapshot copy, then for each
in-bounds cell, skip `PENDING`/`INITIAL`/`IMMUNE`, kill an `ALIVE` cell with
neighbor count `< 2` or `> 3`, revive a `DEAD` cell with count `3`, otherwise
keep the copied value. All reads are from the prior grid `g`. -/
def updateGrid (g : Grid) : Grid :=
  { g with cell := fun i j =>
      if 0 ≤ i ∧ i < (g.rows : Int) ∧ 0 ≤ j ∧ j < (g.cols : Int) then
        if g.cell i j = PENDING ∨ g.cell i j = INITIAL ∨ g.cell i j = IMMUNE then
          g.cell i j
        else if g.cell i j = ALIVE ∧
            (countLiveNeighbors g i j < 2 ∨ countLiveNeighbors g i j > 3) then
          DEAD
        else if g.cell i j = DEAD ∧ countLiveNeighbors g i j = 3 then
          ALIVE
        else
          g.cell i j
      else g.cell i j }

/-- `setupGrid()`: the all-`DEAD` `CONFIG.ROWS × CONFIG.COLS` grid. -/
def setupGrid : Grid :=
  { rows := CONFIG_ROWS, cols := CONFIG_COLS, cell := fun _ _ => DEAD }

end ConwayChannel

namespace ConwayChannel

/-- Small digit glyphs, from the `digits` table in the source. Entries outside
0-9 (the `currentDigit in digits` test in the source) give the empty glyph. -/
def digits : Nat → List Cell
  | 0 => [(1, 1), (1, 2), (1, 3), (2, 1), (2, 3), (3, 1), (3, 3), (4, 1), (4, 3), (5, 1), (5, 2), (5, 3)]
  | 1 => [(1, 1), (2, 1), (3, 1), (4, 1), (5, 1)]
  | 2 => [(1, 1), (1, 2), (1, 3), (2, 3), (3, 1), (3, 2), (3, 3), (4, 1), (5, 1), (5, 2), (5, 3)]
  | 3 => [(1, 1), (1, 2), (1, 3), (2, 3), (3, 1), (3, 2), (3, 3), (4, 3), (5, 1), (5, 2), (5, 3)]
  | 4 => [(1, 1), (1, 3), (2, 1), (2, 3), (3, 1), (3, 2), (3, 3), (4, 3), (5, 3)]
  | 5 => [(1, 1), (1, 2), (1, 3), (2, 1), (3, 1), (3, 2), (3, 3), (4, 3), (5, 1), (5, 2), (5, 3)]
  | 6 => [(1, 1), (1, 2), (1, 3), (2, 1), (3, 1), (3, 2), (3, 3), (4, 1), (4, 3), (5, 1), (5, 2), (5, 3)]
  | 7 => [(1, 1), (1, 2), (1, 3), (2, 3), (3, 3), (4, 3), (5, 3)]
  | 8 => [(1, 1), (1, 2), (1, 3), (2, 1), (2, 3), (3, 1), (3, 2), (3, 3), (4, 1), (4, 3), (5, 1), (5, 2), (5, 3)]
  | 9 => [(1, 1), (1, 2), (1, 3), (2, 1), (2, 3), (3, 1), (3, 2), (3, 3), (4, 3), (5, 3)]
  | _ => []

/-- Large digit glyphs, from the `digitsLarge` table in the source. -/
def digitsLarge : Nat → List Cell
  | 0 => [(1, 2), (1, 3), (1, 4), (1, 5), (1, 6), (1, 7), (1, 8), (2, 1), (2, 2), (2, 8), (2, 9), (3, 1), (3, 4), (3, 5), (3, 6), (3, 9), (3, 10), (4, 1), (4, 4), (4, 5), (4, 9), (4, 10), (5, 1), (5, 4), (5, 6), (5, 9), (5, 10), (6, 1), (6, 5), (6, 6), (6, 9), (6, 10), (7, 1), (7, 4), (7, 5), (7, 6), (7, 9), (7, 10), (8, 1), (8, 2), (8, 8), (8, 9), (8, 10), (9, 2), (9, 3), (9, 4), (9, 5), (9, 6), (9, 7), (9, 8), (9, 9), (9, 10), (10, 3), (10, 4), (10, 5), (10, 6), (10, 7), (10, 8), (10, 9)]
  | 1 => [(1, 3), (1, 4), (1, 5), (1, 6), (2, 2), (2, 3), (2, 6), (2, 7), (3, 2), (3, 6), (3, 7), (4, 2), (4, 3), (4, 6), (4, 7), (5, 3), (5, 6), (5, 7), (6, 3), (6, 6), (6, 7), (7, 2), (7, 3), (7, 6), (7, 7), (8, 1), (8, 7), (9, 1), (9, 2), (9, 3), (9, 4), (9, 5), (9, 6), (9, 7), (10, 1), (10, 2), (10, 3), (10, 4), (10, 5), (10, 6), (10, 7)]
  | 2 => [(1, 2), (1, 3), (1, 4), (1, 5), (1, 6), (1, 7), (1, 8), (2, 2), (2, 9), (3, 1), (3, 4), (3, 5), (3, 6), (3, 9), (4, 1), (4, 4), (4, 5), (4, 9), (5, 2), (5, 3), (5, 4), (5, 8), (5, 9), (6, 3), (6, 7), (6, 8), (7, 2), (7, 6), (7, 7), (7, 8), (7, 9), (8, 1), (8, 9), (9, 1), (9, 2), (9, 3), (9, 4), (9, 5), (9, 6), (9, 7), (9, 8), (9, 9), (10, 2), (10, 3), (10, 4), (10, 5), (10, 6), (10, 7), (10, 8)]
  | 3 => [(1, 2), (1, 3), (1, 4), (1, 5), (1, 6), (1, 7), (1, 8), (2, 1), (2, 2), (2, 8), (2, 9), (3, 1), (3, 4), (3, 5), (3, 6), (3, 9), (4, 1), (4, 2), (4, 3), (4, 4), (4, 5), (4, 6), (4, 9), (5, 2), (5, 3), (5, 4), (5, 8), (5, 9), (6, 1), (6, 2), (6, 3), (6, 4), (6, 5), (6, 6), (6, 9), (7, 1), (7, 4), (7, 5), (7, 6), (7, 9), (8, 1), (8, 2), (8, 8), (8, 9), (9, 2), (9, 3), (9, 4), (9, 5), (9, 6), (9, 7), (9, 8), (9, 9), (10, 3), (10, 4), (10, 5), (10, 6), (10, 7), (10, 8)]
  | 4 => [(1, 5), (1, 6), (1, 7), (1, 8), (2, 4), (2, 5), (2, 8), (2, 9), (3, 3), (3, 4), (3, 8), (3, 9), (4, 2), (4, 3), (4, 8), (4, 9), (5, 1), (5, 2), (5, 5), (5, 8), (5, 9), (6, 1), (6, 4), (6, 5), (6, 8), (6, 9), (7, 1), (7, 9), (7, 10), (8, 1), (8, 2), (8, 3), (8, 4), (8, 5), (8, 8), (8, 9), (8, 10), (9, 2), (9, 3), (9, 4), (9, 5), (9, 6), (9, 7), (9, 8), (9, 9), (9, 10), (10, 6), (10, 7), (10, 8), (10, 9)]
  | 5 => [(1, 1), (1, 2), (1, 3), (1, 4), (1, 5), (1, 6), (1, 7), (1, 8), (1, 9), (1, 10), (2, 1), (2, 9), (2, 10), (3, 1), (3, 4), (3, 5), (3, 6), (3, 7), (3, 8), (3, 9), (3, 10), (4, 1), (4, 8), (4, 9), (4, 10), (5, 1), (5, 2), (5, 3), (5, 4), (5, 5), (5, 6), (5, 9), (5, 10), (6, 1), (6, 2), (6, 3), (6, 4), (6, 5), (6, 6), (6, 9), (6, 10), (7, 1), (7, 4), (7, 5), (7, 6), (7, 9), (7, 10), (8, 1), (8, 2), (8, 8), (8, 9), (8, 10), (9, 2), (9, 3), (9, 4), (9, 5), (9, 6), (9, 7), (9, 8), (9, 9), (9, 10), (10, 3), (10, 4), (10, 5), (10, 6), (10, 7), (10, 8), (10, 9)]
  | 6 => [(1, 3), (1, 4), (1, 5), (1, 6), (1, 7), (2, 2), (2, 3), (2, 7), (2, 8), (3, 1), (3, 2), (3, 5), (3, 6), (3, 7), (3, 8), (4, 1), (4, 4), (4, 5), (4, 6), (4, 7), (4, 8), (5, 1), (5, 8), (5, 9), (6, 1), (6, 4), (6, 5), (6, 6), (6, 9), (6, 10), (7, 1), (7, 4), (7, 5), (7, 6), (7, 9), (7, 10), (8, 1), (8, 8), (8, 9), (8, 10), (9, 2), (9, 3), (9, 4), (9, 5), (9, 6), (9, 7), (9, 8), (9, 9), (9, 10), (10, 3), (10, 4), (10, 5), (10, 6), (10, 7), (10, 8), (10, 9)]
  | 7 => [(1, 1), (1, 2), (1, 3), (1, 4), (1, 5), (1, 6), (1, 7), (1, 8), (1, 9), (2, 1), (2, 9), (2, 10), (3, 1), (3, 2), (3, 3), (3, 4), (3, 5), (3, 8), (3, 9), (3, 10), (4, 3), (4, 4), (4, 5), (4, 8), (4, 9), (4, 10), (5, 4), (5, 7), (5, 8), (5, 9), (6, 3), (6, 4), (6, 7), (6, 8), (6, 9), (7, 3), (7, 6), (7, 7), (7, 8), (8, 3), (8, 6), (8, 7), (8, 8), (9, 3), (9, 4), (9, 5), (9, 6), (9, 7), (10, 4), (10, 5), (10, 6), (10, 7)]
  | 8 => [(1, 2), (1, 3), (1, 4), (1, 5), (1, 6), (1, 7), (1, 8), (2, 1), (2, 2), (2, 8), (2, 9), (3, 1), (3, 4), (3, 5), (3, 6), (3, 9), (3, 10), (4, 1), (4, 5), (4, 6), (4, 9), (4, 10), (5, 1), (5, 2), (5, 8), (5, 9), (5, 10), (6, 1), (6, 4), (6, 5), (6, 9), (6, 10), (7, 1), (7, 4), (7, 5), (7, 6), (7, 9), (7, 10), (8, 1), (8, 2), (8, 9), (8, 10), (9, 2), (9, 3), (9, 4), (9, 5), (9, 6), (9, 7), (9, 8), (9, 9), (9, 10), (10, 3), (10, 4), (10, 5), (10, 6), (10, 7), (10, 8), (10, 9)]
  | 9 => [(1, 2), (1, 3), (1, 4), (1, 5), (1, 6), (1, 7), (1, 8), (2, 1), (2, 2), (2, 9), (3, 1), (3, 4), (3, 5), (3, 6), (3, 9), (3, 10), (4, 1), (4, 4), (4, 5), (4, 6), (4, 9), (4, 10), (5, 1), (5, 2), (5, 9), (5, 10), (6, 2), (6, 3), (6, 4), (6, 5), (6, 6), (6, 9), (6, 10), (7, 3), (7, 4), (7, 5), (7, 9), (7, 10), (8, 3), (8, 8), (8, 9), (8, 10), (9, 3), (9, 4), (9, 5), (9, 6), (9, 7), (9, 8), (9, 9), (10, 4), (10, 5), (10, 6), (10, 7), (10, 8)]
  | _ => []

/-- The small currency-symbol glyph, `symbols[0]` in the source. -/
def symbols0 : List Cell := [(1, 2), (2, 1), (2, 2), (2, 3), (3, 1), (4, 1), (4, 2), (4, 3), (5, 3), (6, 1), (6, 2), (6, 3), (7, 2)]

/-- The large currency-symbol glyph, `symbolsLarge[0]` in the source. -/
def symbolsLarge0 : List Cell := [(1, 4), (1, 5), (1, 6), (1, 7), (2, 3), (2, 4), (2, 7), (2, 8), (3, 2), (3, 9), (4, 2), (4, 9), (5, 2), (5, 4), (5, 5), (5, 6), (5, 7), (5, 8), (5, 9), (6, 2), (6, 9), (7, 2), (7, 9), (8, 2), (8, 3), (8, 4), (8, 5), (8, 6), (8, 7), (8, 9), (9, 2), (9, 9), (10, 2), (10, 9), (11, 3), (11, 4), (11, 7), (11, 8), (12, 4), (12, 5), (12, 6), (12, 7)]

/-- `digitsWidths[d] || 3`: declared width of a small digit glyph, with the
source's `|| 3` default for keys outside the table. -/
def digitsWidths (d : Nat) : Nat := if d = 1 then 1 else 3

/-- `digitsLargeWidths[d] || 7`, with the default for keys outside the table. -/
def digitsLargeWidths (d : Nat) : Nat := if d = 1 then 6 else 7

/-- `symbolsLargeWidth` in the source. -/
def symbolsLargeWidth : Nat := 9

/-- `symbolsLargeHeight` in the source. -/
def symbolsLargeHeight : Nat := 12

/-- The 2x2 pixel expansion applied by `createDoubledDigits` and
`createDoubledSymbol`: each `(row, col)` becomes the four offsets
`(row*2-1, col*2-1)`, `(row*2-1, col*2)`, `(row*2, col*2-1)`, `(row*2, col*2)`. -/
def doublePixel (q : Cell) : List Cell :=
  [(q.1 * 2 - 1, q.2 * 2 - 1), (q.1 * 2 - 1, q.2 * 2),
   (q.1 * 2, q.2 * 2 - 1), (q.1 * 2, q.2 * 2)]

/-- `digitsDoubled = createDoubledDigits()`: the small digit glyphs expanded
pixel-by-pixel via `flatMap`, as in the source. -/
def digitsDoubled (d : Nat) : List Cell :=
  (digits d).flatMap doublePixel

/-- `symbolDoubled = createDoubledSymbol()`: `symbols[0]` expanded the same way. -/
def symbolDoubled : List Cell :=
  symbols0.flatMap doublePixel

/-- `digitsDoubledWidths[d] || 6`, with the default for keys outside the table. -/
def digitsDoubledWidths (d : Nat) : Nat := if d = 1 then 2 else 6

/-- `symbolDoubledWidth` in the source. -/
def symbolDoubledWidth : Nat := 6

/-- The digit list of `String(Math.floor(n))` for a non-negative `n`, most
significant digit first (structural fuel so that it evaluates in the kernel). -/
def digitsOfCore : Nat → Nat → List Nat → List Nat
  | 0, _, acc => acc
  | fuel + 1, n, acc =>
    if n < 10 then n :: acc else digitsOfCore fuel (n / 10) (n % 10 :: acc)

/-- Digits of `n` in base 10, most significant first; `digitsOf 0 = [0]`. -/
def digitsOf (n : Nat) : List Nat := digitsOfCore (n + 1) n []

/-- One glyph-pixel loop body, shared by every stamping routine in the source:
for each glyph offset `(row, col)`, the absolute cell is
`(row + baseRow, col + baseCol)`; if it passes the bounds check
`cellCol >= 0 && cellRow >= 0 && cellCol < grid[0].length && cellRow < grid.length`
the state `st` is written and the cell appended to the tracked list, otherwise
the pixel is dropped. -/
def stampPixels : Grid → List Cell → CellState → Int → Int → List Cell → Grid × List Cell
  | g, acc, _, _, _, [] => (g, acc)
  | g, acc, st, baseRow, baseCol, p :: rest =>
    if 0 ≤ p.2 + baseCol ∧ 0 ≤ p.1 + baseRow ∧
        p.2 + baseCol < (g.cols : Int) ∧ p.1 + baseRow < (g.rows : Int) then
      stampPixels (setCell g (p.1 + baseRow) (p.2 + baseCol) st)
        (acc ++ [(p.1 + baseRow, p.2 + baseCol)]) st baseRow baseCol rest
    else
      stampPixels g acc st baseRow baseCol rest

/-- The digit-sequence loop shared by the three stamping routines: walk the
digit string, stamp `tbl d` for each digit `d` that is a key of the table
(`d < 10`), and advance `currentCol` by the declared width (`wd d`) plus one
column of spacing. `colAdj` is the per-routine column adjustment (`0` for the
small and large stamps, `-1` for the doubled immune stamp, whose source writes
`col + currentCol - 1`). -/
def stampDigitList (tbl : Nat → List Cell) (wd : Nat → Nat) (st : CellState)
    (colAdj : Int) : Grid → List Cell → List Nat → Int → Int → Grid × List Cell
  | g, acc, [], _, _ => (g, acc)
  | g, acc, d :: rest, baseRow, currentCol =>
    let r :=
      if d < 10 then stampPixels g acc st baseRow (currentCol + colAdj) (tbl d)
      else (g, acc)
    stampDigitList tbl wd st colAdj r.1 r.2 rest baseRow
      (currentCol + (wd d : Int) + 1)

/-- `setDigitAsPending(grid, digit, startRow, startCol, pendingCells)`: stamp
the small currency symbol at row base `startRow - 1`, then the digit string
starting at column `startCol + 4`, all as `PENDING`, returning the grid and the
tracked cells. -/
def setDigitAsPending (g : Grid) (ds : List Nat) (startRow startCol : Int) :
    Grid × List Cell :=
  let r := stampPixels g [] PENDING (startRow - 1) startCol symbols0
  stampDigitList digits digitsWidths PENDING 0 r.1 r.2 ds startRow (startCol + 4)

/-- `setLargeDigitsAsInitial(grid, digit, pendingCells)`: the centered large
stamp of the initial total, written as `INITIAL`. Layout constants are taken
from `CONFIG` as in the source (not from the grid argument). -/
def setLargeDigitsAsInitial (g : Grid) (ds : List Nat) : Grid × List Cell :=
  let digitSpacing : Nat := 1
  let digitHeight : Nat := 12
  let dollarDigitOffset : Int := ((symbolsLargeHeight : Int) - digitHeight) / 2
  let totalWidth : Nat :=
    (symbolsLargeWidth + digitSpacing +
      ds.foldl (fun acc d => acc + digitsLargeWidths d + digitSpacing) 0) -
      digitSpacing
  let startRow : Int := ((CONFIG_ROWS : Int) - symbolsLargeHeight) / 2
  let startCol : Int := Int.fdiv ((CONFIG_COLS : Int) - totalWidth) 2
  let r := stampPixels g [] INITIAL (startRow - 2) startCol symbolsLarge0
  stampDigitList digitsLarge digitsLargeWidths INITIAL 0 r.1 r.2 ds
    (startRow - 1 + dollarDigitOffset) (startCol + symbolsLargeWidth + digitSpacing)

/-- The clearing loop of `setTotalAsImmune`: every cell of the previous immune
list that passes the bounds check is set to `DEAD` unconditionally. -/
def clearCells : Grid → List Cell → Grid
  | g, [] => g
  | g, p :: rest =>
    clearCells
      (if 0 ≤ p.1 ∧ p.1 < (g.rows : Int) ∧ 0 ≤ p.2 ∧ p.2 < (g.cols : Int) then
        setCell g p.1 p.2 DEAD
      else g)
      rest

/-- `setTotalAsImmune(grid, total, previousImmuneCells)`: clear the previous
immune cells to `DEAD`, then stamp the new total bottom-right with the doubled
glyphs as `IMMUNE`, returning the grid and the new tracked list. Layout
constants come from `CONFIG` as in the source. -/
def setTotalAsImmune (g : Grid) (total : Nat) (prev : List Cell) :
    Grid × List Cell :=
  let g0 := clearCells g prev
  let ds := digitsOf total
  let digitSpacing : Nat := 1
  let dollarSignHeight : Nat := 14
  let digitHeight : Nat := 10
  let totalHeight : Nat := max dollarSignHeight digitHeight
  let totalWidth : Nat :=
    (symbolDoubledWidth + digitSpacing +
      ds.foldl (fun acc d => acc + digitsDoubledWidths d + digitSpacing) 0) -
      digitSpacing
  let paddingRight : Nat := 1
  let paddingBottom : Nat := 1
  let startRow : Int := (CONFIG_ROWS : Int) - totalHeight - paddingBottom
  let startCol : Int := (CONFIG_COLS : Int) - totalWidth - paddingRight
  let digitVerticalOffset : Nat := (dollarSignHeight - digitHeight) / 2
  let r := stampPixels g0 [] IMMUNE (startRow - 1) (startCol - 1) symbolDoubled
  stampDigitList digitsDoubled digitsDoubledWidths IMMUNE (-1) r.1 r.2 ds
    (startRow - 1 + digitVerticalOffset)
    (startCol + symbolDoubledWidth + digitSpacing)

/-- The body of the one-shot `setTimeout` callback attached to each tracked
cell (identical in both variants up to the guarded state: `PENDING` for
donation stamps, `INITIAL` for the initial total): if the cell still holds the
state it was stamped with, set it to `ALIVE`; then remove every entry with the
cell's coordinates from the tracked list. -/
def expireTrackedCell (g : Grid) (pending : List Cell) (cell : Cell)
    (stamped : CellState) : Grid × List Cell :=
  (if g.cell cell.1 cell.2 = stamped then setCell g cell.1 cell.2 ALIVE else g,
   pending.filter (fun q => decide (¬(q.1 = cell.1 ∧ q.2 = cell.2))))

/-- The digit half of `wouldOverlapImmune`: walk the digit string and test each
glyph pixel (`cellRow = row + testStartX`, `cellCol = col + currentCol`) for
membership in the immune set. -/
def overlapDigitCells (immune : List Cell) :
    List Nat → Int → Int → Bool
  | [], _, _ => false
  | d :: rest, testStartX, currentCol =>
    (if d < 10 then
      (digits d).any (fun q =>
        decide ((q.1 + testStartX, q.2 + currentCol) ∈ immune))
    else false) ||
    overlapDigitCells immune rest testStartX (currentCol + (digitsWidths d : Int) + 1)

/-- `wouldOverlapImmune(testStartX, testStartY)` of the immune-aware donation
handler: would the dollar sign (row base `testStartX - 1`) or any digit of the
amount (columns from `testStartY + 4`) land on a currently immune cell? -/
def wouldOverlapImmune (immune : List Cell) (ds : List Nat)
    (testStartX testStartY : Int) : Bool :=
  symbols0.any (fun q =>
    decide ((q.1 + testStartX - 1, q.2 + testStartY) ∈ immune)) ||
  overlapDigitCells immune ds testStartX (testStartY + 4)

/-- The capped `do ... while` placement loop of the immune-aware variant:
`attempts` counts completed samples, `left` is the structural fuel
`maxAttempts - attempts` (the entry point starts it at `maxAttempts = 50`, and
the loop condition `attempts < maxAttempts` makes the fuel-exhausted branch
unreachable from the entry point). Returns the accepted candidate and the
number of attempts made. -/
def placementLoopGo (cand : Nat → Int × Int) (ov : Int × Int → Bool) :
    Nat → Nat → (Int × Int) × Nat
  | attempts, 0 => (cand attempts, attempts + 1)
  | attempts, left + 1 =>
    let p := cand attempts
    let a := attempts + 1
    if ov p = true ∧ a < 50 then placementLoopGo cand ov a left else (p, a)

/-- The placement search of the immune-aware variant:
`do { sample } while (wouldOverlapImmune(startX, startY) && attempts < 50)`. -/
def placementLoop (cand : Nat → Int × Int) (ov : Int × Int → Bool) :
    (Int × Int) × Nat :=
  placementLoopGo cand ov 0 50

/-- The exclusion-zone test of the earlier variant's placement loop:
`startX > CONFIG.ROWS - excludeBottomRows && startY > CONFIG.COLS - excludeRightCols`
with `excludeBottomRows = 18`, `excludeRightCols = 65`. -/
def inExcludeZoneV1 (p : Int × Int) : Bool :=
  decide (p.1 > (CONFIG_ROWS : Int) - 18 ∧ p.2 > (CONFIG_COLS : Int) - 65)

/-- The uncapped `do ... while` placement loop of the earlier variant
(`index.tsx`), embedded with fuel: resample while the candidate lies in the
exclusion zone; `none` means the loop has not exited within `fuel` iterations. -/
def placementLoopV1 (cand : Nat → Int × Int) : Nat → Nat → Option (Int × Int)
  | _, 0 => none
  | k, fuel + 1 =>
    let p := cand k
    if inExcludeZoneV1 p = true then placementLoopV1 cand (k + 1) fuel else some p

/-- The `useListenFor('donation')` handler of the immune-aware variant, for a
donation whose floored amount is the non-negative integer `amount`: run the
overlap-avoiding placement search over the sampled candidate stream `cand`,
then stamp the amount as `PENDING` at the accepted position. -/
def donationHandler (g : Grid) (immune : List Cell) (amount : Nat)
    (cand : Nat → Int × Int) : Grid × List Cell :=
  let ds := digitsOf amount
  let pa := placementLoop cand (fun p => wouldOverlapImmune immune ds p.1 p.2)
  setDigitAsPending g ds pa.1.1 pa.1.2

/-- The initial-total effect: `if (total?.raw && !hasShownInitialTotal.current)`
stamp the floored total once as `INITIAL` and set the flag; a missing or zero
(falsy) total, or an already-set flag, is a no-op. `raw = none` models an
absent payload. -/
def initialTotalHandler (g : Grid) (raw : Option Nat) (hasShown : Bool) :
    Grid × List Cell × Bool :=
  match raw with
  | none => (g, [], hasShown)
  | some v =>
    if v ≠ 0 ∧ hasShown = false then
      let r := setLargeDigitsAsInitial g (digitsOf v)
      (r.1, r.2, true)
    else (g, [], hasShown)

/-- The cell `p` lies within the bounds of `g`. -/
def inGrid (g : Grid) (p : Cell) : Prop :=
  0 ≤ p.1 ∧ p.1 < (g.rows : Int) ∧ 0 ≤ p.2 ∧ p.2 < (g.cols : Int)

instance (g : Grid) (p : Cell) : Decidable (inGrid g p) := by
  unfold inGrid; infer_instance

/-- The simulation-frozen states (`PENDING`, `INITIAL`, `IMMUNE`). -/
def isProtected : CellState → Bool
  | PENDING => true
  | INITIAL => true
  | IMMUNE => true
  | _ => false

/-- The eight surrounding coordinates of `(r, c)`, as the spec describes them. -/
def neighborsOf (r c : Int) : List Cell :=
  [(r - 1, c - 1), (r - 1, c), (r - 1, c + 1), (r, c - 1),
   (r, c + 1), (r + 1, c - 1), (r + 1, c), (r + 1, c + 1)]

/-- Spec-side neighbor count, following the claim wording: the number of the
eight surrounding cells that are in-grid and in state `ALIVE` (out-of-grid
neighbors absent, every non-`ALIVE` state counting as non-alive). -/
def specLiveNeighborCount (g : Grid) (r c : Int) : Nat :=
  (neighborsOf r c).countP (fun q =>
    decide (0 ≤ q.1 ∧ q.1 < (g.rows : Int) ∧ 0 ≤ q.2 ∧ q.2 < (g.cols : Int) ∧
      g.cell q.1 q.2 = ALIVE))

/-- Relation between the input and output of one stamping pass that writes the
single state `st`: dimensions are preserved, the tracked list is extended by
some in-bounds cells that all hold `st` afterwards, and every other cell is
untouched. -/
def Stamps (st : CellState) (g : Grid) (acc : List Cell)
    (out : Grid × List Cell) : Prop :=
  out.1.rows = g.rows ∧ out.1.cols = g.cols ∧
  ∃ w : List Cell, out.2 = acc ++ w ∧
    (∀ p ∈ w, inGrid g p ∧ out.1.cell p.1 p.2 = st) ∧
    (∀ q : Cell, q ∉ w → out.1.cell q.1 q.2 = g.cell q.1 q.2)

/-- A `rows × cols` grid holding exactly a horizontal row of three `ALIVE`
cells centered at `(r, c)`, all other cells `DEAD`. -/
def hBlinker (rows cols : Nat) (r c : Int) : Grid :=
  { rows := rows, cols := cols,
    cell := fun i j =>
      if i = r ∧ (j = c - 1 ∨ j = c ∨ j = c + 1) then ALIVE else DEAD }

/-- A `rows × cols` grid holding exactly a vertical column of three `ALIVE`
cells centered at `(r, c)`, all other cells `DEAD`. -/
def vBlinker (rows cols : Nat) (r c : Int) : Grid :=
  { rows := rows, cols := cols,
    cell := fun i j =>
      if j = c ∧ (i = r - 1 ∨ i = r ∨ i = r + 1) then ALIVE else DEAD }

/-- A 3×3 grid holding a single `ALIVE` cell at its center (witness data). -/
def exampleGridA : Grid :=
  { rows := 3, cols := 3, cell := fun i j => if i = 1 ∧ j = 1 then ALIVE else DEAD }

/-- A 3×3 grid holding a single `PENDING` cell at its center (witness data). -/
def exampleGridP : Grid :=
  { rows := 3, cols := 3, cell := fun i j => if i = 1 ∧ j = 1 then PENDING else DEAD }

end ConwayChannel

namespace ConwayChannel

theorem toNat_decide (P : Prop) [Decidable P] :
    (decide P).toNat = if P then 1 else 0 := by
  by_cases h : P <;> simp [h]

theorem countLiveNeighbors_eq_spec (g : Grid) (r c : Int) :
    countLiveNeighbors g r c = specLiveNeighborCount g r c := by
  simp only [countLiveNeighbors, specLiveNeighborCount, neighborsOf, isAliveAt,
    List.countP_cons, List.countP_nil, decide_eq_true_eq, toNat_decide]
  split_ifs <;> rfl

/-- C1: for every grid and every in-bounds cell not in a protected state
(`PENDING`, `INITIAL`, `IMMUNE`), one `updateGrid` step computes the next state
by Conway's rule read from the prior generation: with `n` the number of `ALIVE`
neighbors among the eight surrounding in-grid cells (out-of-grid neighbors
absent, protected neighbors non-alive), an `ALIVE` cell with `n < 2` or `n > 3`
becomes `DEAD`, a `DEAD` cell with `n = 3` becomes `ALIVE`, and otherwise the
cell is unchanged. -/
theorem updateGrid_conway_rule (g : Grid) (i j : Int)
    (hin : 0 ≤ i ∧ i < (g.rows : Int) ∧ 0 ≤ j ∧ j < (g.cols : Int))
    (hnp : g.cell i j ≠ PENDING ∧ g.cell i j ≠ INITIAL ∧ g.cell i j ≠ IMMUNE) :
    (updateGrid g).cell i j =
      if g.cell i j = ALIVE ∧
          (specLiveNeighborCount g i j < 2 ∨ specLiveNeighborCount g i j > 3) then
        DEAD
      else if g.cell i j = DEAD ∧ specLiveNeighborCount g i j = 3 then
        ALIVE
      else
        g.cell i j := by
  show (if _ then _ else _) = _
  rw [if_pos hin,
    if_neg (fun h => h.elim hnp.1 (fun h2 => h2.elim hnp.2.1 hnp.2.2))]
  simp only [countLiveNeighbors_eq_spec]

/-- Witness for C1: the lone `ALIVE` center of `exampleGridA` follows the rule. -/
theorem updateGrid_conway_rule_witness :
    (updateGrid exampleGridA).cell 1 1 =
      if exampleGridA.cell 1 1 = ALIVE ∧
          (specLiveNeighborCount exampleGridA 1 1 < 2 ∨
            specLiveNeighborCount exampleGridA 1 1 > 3) then
        DEAD
      else if exampleGridA.cell 1 1 = DEAD ∧
          specLiveNeighborCount exampleGridA 1 1 = 3 then
        ALIVE
      else
        exampleGridA.cell 1 1 :=
  updateGrid_conway_rule exampleGridA 1 1 (by decide) (by decide)

/-- C2: `updateGrid` leaves every cell whose state is `PENDING`, `INITIAL` or
`IMMUNE` unchanged, regardless of its neighbor count. -/
theorem updateGrid_protected_unchanged (g : Grid) (i j : Int)
    (h : g.cell i j = PENDING ∨ g.cell i j = INITIAL ∨ g.cell i j = IMMUNE) :
    (updateGrid g).cell i j = g.cell i j := by
  show (if _ then _ else _) = _
  by_cases hb : 0 ≤ i ∧ i < (g.rows : Int) ∧ 0 ≤ j ∧ j < (g.cols : Int)
  · rw [if_pos hb, if_pos h]
  · rw [if_neg hb]

/-- Witness for C2: the `PENDING` center of `exampleGridP` is unchanged. -/
theorem updateGrid_protected_unchanged_witness :
    (updateGrid exampleGridP).cell 1 1 = exampleGridP.cell 1 1 :=
  updateGrid_protected_unchanged exampleGridP 1 1 (by decide)

/-- C9: `updateGrid` maps a `DEAD`/`ALIVE` cell to a `DEAD`/`ALIVE` cell and
never changes whether a cell is protected, so the protected set is exactly
preserved across a step. -/
theorem updateGrid_preserves_partition (g : Grid) (i j : Int) :
    ((g.cell i j = DEAD ∨ g.cell i j = ALIVE) →
      ((updateGrid g).cell i j = DEAD ∨ (updateGrid g).cell i j = ALIVE)) ∧
    isProtected ((updateGrid g).cell i j) = isProtected (g.cell i j) := by
  show ((_ → ((if _ then _ else _) = DEAD ∨ (if _ then _ else _) = ALIVE)) ∧
    isProtected (if _ then _ else _) = _)
  by_cases hb : 0 ≤ i ∧ i < (g.rows : Int) ∧ 0 ≤ j ∧ j < (g.cols : Int)
  · rw [if_pos hb]
    split_ifs with h1 h2 h3 <;> simp_all [isProtected]
  · rw [if_neg hb]
    exact ⟨fun h => h, rfl⟩

/-- Witness for C9: the lone `ALIVE` center of `exampleGridA` dies but stays in
the `DEAD`/`ALIVE` fragment. -/
theorem updateGrid_preserves_partition_witness :
    (updateGrid exampleGridA).cell 1 1 = DEAD ∨
      (updateGrid exampleGridA).cell 1 1 = ALIVE :=
  (updateGrid_preserves_partition exampleGridA 1 1).1 (by decide)

theorem stamps_id (st : CellState) (g : Grid) (acc : List Cell) :
    Stamps st g acc (g, acc) :=
  ⟨rfl, rfl, [], by simp, by simp, fun _ _ => rfl⟩

theorem stamps_trans (st : CellState) (g : Grid) (acc : List Cell)
    (m out : Grid × List Cell) (h1 : Stamps st g acc m)
    (h2 : Stamps st m.1 m.2 out) : Stamps st g acc out := by
  obtain ⟨hr1, hc1, w1, hw1, hin1, hout1⟩ := h1
  obtain ⟨hr2, hc2, w2, hw2, hin2, hout2⟩ := h2
  refine ⟨hr2.trans hr1, hc2.trans hc1, w1 ++ w2, ?_, ?_, ?_⟩
  · rw [hw2, hw1, List.append_assoc]
  · intro p hp
    rcases List.mem_append.mp hp with hp1 | hp2
    · refine ⟨(hin1 p hp1).1, ?_⟩
      by_cases hpw2 : p ∈ w2
      · exact (hin2 p hpw2).2
      · rw [hout2 p hpw2]
        exact (hin1 p hp1).2
    · obtain ⟨hbp, hval⟩ := hin2 p hp2
      refine ⟨?_, hval⟩
      unfold inGrid at hbp ⊢
      rw [hr1, hc1] at hbp
      exact hbp
  · intro q hq
    rw [List.mem_append] at hq
    push_neg at hq
    rw [hout2 q hq.2, hout1 q hq.1]

theorem stampPixels_stamps (st : CellState) (br bc : Int) :
    ∀ (px : List Cell) (g : Grid) (acc : List Cell),
      Stamps st g acc (stampPixels g acc st br bc px) := by
  intro px
  induction px with
  | nil => intro g acc; exact stamps_id st g acc
  | cons p rest ih =>
    intro g acc
    simp only [stampPixels]
    by_cases h : 0 ≤ p.2 + bc ∧ 0 ≤ p.1 + br ∧
        p.2 + bc < (g.cols : Int) ∧ p.1 + br < (g.rows : Int)
    · rw [if_pos h]
      refine stamps_trans st g acc
        (setCell g (p.1 + br) (p.2 + bc) st, acc ++ [(p.1 + br, p.2 + bc)]) _ ?_
        (ih (setCell g (p.1 + br) (p.2 + bc) st) (acc ++ [(p.1 + br, p.2 + bc)]))
      refine ⟨rfl, rfl, [(p.1 + br, p.2 + bc)], rfl, ?_, ?_⟩
      · intro q hq
        rw [List.mem_singleton] at hq
        subst hq
        exact ⟨⟨h.2.1, h.2.2.2, h.1, h.2.2.1⟩, by simp [setCell]⟩
      · intro q hq
        rw [List.mem_singleton] at hq
        show (if q.1 = p.1 + br ∧ q.2 = p.2 + bc then st else g.cell q.1 q.2) =
          g.cell q.1 q.2
        exact if_neg (fun hc => hq (Prod.ext_iff.mpr hc))
    · rw [if_neg h]
      exact ih g acc

theorem stampDigitList_stamps (tbl : Nat → List Cell) (wd : Nat → Nat)
    (st : CellState) (colAdj : Int) :
    ∀ (ds : List Nat) (g : Grid) (acc : List Cell) (baseRow currentCol : Int),
      Stamps st g acc (stampDigitList tbl wd st colAdj g acc ds baseRow currentCol) := by
  intro ds
  induction ds with
  | nil => intro g acc br cc; exact stamps_id st g acc
  | cons d rest ih =>
    intro g acc br cc
    simp only [stampDigitList]
    by_cases h : d < 10
    · rw [if_pos h]
      exact stamps_trans st g acc (stampPixels g acc st br (cc + colAdj) (tbl d)) _
        (stampPixels_stamps st br (cc + colAdj) (tbl d) g acc)
        (ih _ _ br (cc + (wd d : Int) + 1))
    · rw [if_neg h]
      exact ih g acc br (cc + (wd d : Int) + 1)

theorem setDigitAsPending_stamps (g : Grid) (ds : List Nat) (r c : Int) :
    Stamps PENDING g [] (setDigitAsPending g ds r c) := by
  unfold setDigitAsPending
  exact stamps_trans PENDING g [] (stampPixels g [] PENDING (r - 1) c symbols0) _
    (stampPixels_stamps PENDING (r - 1) c symbols0 g [])
    (stampDigitList_stamps digits digitsWidths PENDING 0 ds _ _ r (c + 4))

theorem stampPixels_first_in (st : CellState) (br bc : Int) (p : Cell)
    (rest : List Cell) (g : Grid) (acc : List Cell)
    (h : 0 ≤ p.2 + bc ∧ 0 ≤ p.1 + br ∧
      p.2 + bc < (g.cols : Int) ∧ p.1 + br < (g.rows : Int)) :
    ∃ w : List Cell, (stampPixels g acc st br bc (p :: rest)).2 =
      acc ++ (p.1 + br, p.2 + bc) :: w := by
  simp only [stampPixels]
  rw [if_pos h]
  obtain ⟨_, _, w, hw, _, _⟩ := stampPixels_stamps st br bc rest
    (setCell g (p.1 + br) (p.2 + bc) st) (acc ++ [(p.1 + br, p.2 + bc)])
  exact ⟨w, by rw [hw]; simp⟩

theorem setDigitAsPending_ne_nil (g : Grid) (ds : List Nat) (r c : Int)
    (h : 0 ≤ r ∧ r < (g.rows : Int) ∧ 0 ≤ c + 2 ∧ c + 2 < (g.cols : Int)) :
    (setDigitAsPending g ds r c).2 ≠ [] := by
  unfold setDigitAsPending symbols0
  obtain ⟨w1, hw1⟩ := stampPixels_first_in PENDING (r - 1) c (1, 2)
    [(2, 1), (2, 2), (2, 3), (3, 1), (4, 1), (4, 2), (4, 3), (5, 3), (6, 1),
      (6, 2), (6, 3), (7, 2)] g []
    ⟨by omega, by omega, by omega, by omega⟩
  obtain ⟨_, _, w2, hw2, _, _⟩ := stampDigitList_stamps digits digitsWidths
    PENDING 0 ds _ _ r (c + 4)
  rw [hw2, hw1]
  simp

/-- C3 (amended): stamping a digit string with `setDigitAsPending` writes a
non-empty cell set whenever the anchor places a glyph pixel in bounds (in
particular whenever `0 ≤ r < rows` and `0 ≤ c + 2 < cols`, where the first
dollar-sign pixel lands); every cell in the returned tracked list holds
`PENDING` after the call; every returned coordinate is within grid bounds; and
pixels falling outside the grid are silently dropped — the grid is unchanged at
every coordinate that is not in the returned list. -/
theorem setDigitAsPending_props (g : Grid) (ds : List Nat) (r c : Int) :
    ((0 ≤ r ∧ r < (g.rows : Int) ∧ 0 ≤ c + 2 ∧ c + 2 < (g.cols : Int)) →
      (setDigitAsPending g ds r c).2 ≠ []) ∧
    (∀ p ∈ (setDigitAsPending g ds r c).2,
      (setDigitAsPending g ds r c).1.cell p.1 p.2 = PENDING) ∧
    (∀ p ∈ (setDigitAsPending g ds r c).2, inGrid g p) ∧
    (∀ q : Cell, q ∉ (setDigitAsPending g ds r c).2 →
      (setDigitAsPending g ds r c).1.cell q.1 q.2 = g.cell q.1 q.2) := by
  obtain ⟨hr, hc, w, hw, hin, hout⟩ := setDigitAsPending_stamps g ds r c
  rw [List.nil_append] at hw
  refine ⟨setDigitAsPending_ne_nil g ds r c, ?_, ?_, ?_⟩
  · intro p hp
    rw [hw] at hp
    exact (hin p hp).2
  · intro p hp
    rw [hw] at hp
    exact (hin p hp).1
  · intro q hq
    rw [hw] at hq
    exact hout q hq

/-- Counterexample to C3 as stated: at the in-grid anchor `(54, 181)` of the
55×182 grid, stamping "123" writes nothing — every glyph pixel falls outside
the grid, so the returned tracked list is empty rather than non-empty. -/
theorem setDigitAsPending_empty_at_edge :
    (setDigitAsPending setupGrid [1, 2, 3] 54 181).2 = [] := by decide

/-- Witness for C3: stamping "123" at anchor `(10, 10)` of the 55×182 grid
returns a non-empty cell set. -/
theorem setDigitAsPending_props_witness :
    (setDigitAsPending setupGrid [1, 2, 3] 10 10).2 ≠ [] :=
  (setDigitAsPending_props setupGrid [1, 2, 3] 10 10).1 (by decide)

theorem setCell_cell (g : Grid) (r c : Int) (s : CellState) (i j : Int) :
    (setCell g r c s).cell i j = if i = r ∧ j = c then s else g.cell i j := rfl

theorem clearCells_rows (prev : List Cell) : ∀ g : Grid,
    (clearCells g prev).rows = g.rows := by
  induction prev with
  | nil => intro g; rfl
  | cons p rest ih =>
    intro g
    simp only [clearCells]
    rw [ih]
    split <;> rfl

theorem clearCells_cols (prev : List Cell) : ∀ g : Grid,
    (clearCells g prev).cols = g.cols := by
  induction prev with
  | nil => intro g; rfl
  | cons p rest ih =>
    intro g
    simp only [clearCells]
    rw [ih]
    split <;> rfl

theorem clearCells_writes_dead (prev : List Cell) : ∀ (g : Grid) (i j : Int),
    g.cell i j = DEAD → (clearCells g prev).cell i j = DEAD := by
  induction prev with
  | nil => intro g i j h; exact h
  | cons p rest ih =>
    intro g i j h
    simp only [clearCells]
    apply ih
    split_ifs
    · rw [setCell_cell]
      split_ifs
      · rfl
      · exact h
    · exact h

theorem clearCells_clears (prev : List Cell) : ∀ (g : Grid), ∀ p ∈ prev,
    inGrid g p → (clearCells g prev).cell p.1 p.2 = DEAD := by
  induction prev with
  | nil => intro g p hp; cases hp
  | cons q rest ih =>
    intro g p hp hb
    simp only [clearCells]
    rcases List.mem_cons.mp hp with h | h
    · subst h
      apply clearCells_writes_dead
      split_ifs with hc
      · rw [setCell_cell, if_pos ⟨rfl, rfl⟩]
      · unfold inGrid at hb
        exact absurd hb hc
    · refine ih _ p h ?_
      unfold inGrid at hb ⊢
      split_ifs <;> exact hb

theorem clearCells_not_mem (prev : List Cell) : ∀ (g : Grid) (q : Cell),
    q ∉ prev → (clearCells g prev).cell q.1 q.2 = g.cell q.1 q.2 := by
  induction prev with
  | nil => intro g q _; rfl
  | cons p rest ih =>
    intro g q h
    rw [List.mem_cons, not_or] at h
    simp only [clearCells]
    rw [ih _ q h.2]
    split_ifs
    · rw [setCell_cell, if_neg (fun he => h.1 (Prod.ext_iff.mpr he))]
    · rfl

theorem setTotalAsImmune_stamps (g : Grid) (t : Nat) (prev : List Cell) :
    Stamps IMMUNE (clearCells g prev) [] (setTotalAsImmune g t prev) := by
  simp only [setTotalAsImmune]
  refine stamps_trans IMMUNE (clearCells g prev) []
    (stampPixels (clearCells g prev) [] IMMUNE _ _ symbolDoubled) _
    (stampPixels_stamps IMMUNE _ _ symbolDoubled (clearCells g prev) [])
    (stampDigitList_stamps digitsDoubled digitsDoubledWidths IMMUNE (-1)
      (digitsOf t) _ _ _ _)

theorem setTotalAsImmune_rows (g : Grid) (t : Nat) (prev : List Cell) :
    (setTotalAsImmune g t prev).1.rows = g.rows :=
  (setTotalAsImmune_stamps g t prev).1.trans (clearCells_rows prev g)

theorem setTotalAsImmune_cols (g : Grid) (t : Nat) (prev : List Cell) :
    (setTotalAsImmune g t prev).1.cols = g.cols :=
  (setTotalAsImmune_stamps g t prev).2.1.trans (clearCells_cols prev g)

theorem setTotalAsImmune_clears (g : Grid) (t : Nat) (prev : List Cell) :
    ∀ p ∈ prev, inGrid g p → p ∉ (setTotalAsImmune g t prev).2 →
      (setTotalAsImmune g t prev).1.cell p.1 p.2 = DEAD := by
  intro p hp hb hnot
  obtain ⟨_, _, w, hw, hin, hout⟩ := setTotalAsImmune_stamps g t prev
  rw [List.nil_append] at hw
  rw [hw] at hnot
  rw [hout p hnot]
  exact clearCells_clears prev g p hp hb

theorem setTotalAsImmune_immune (g : Grid) (t : Nat) (prev : List Cell) :
    ∀ p ∈ (setTotalAsImmune g t prev).2,
      (setTotalAsImmune g t prev).1.cell p.1 p.2 = IMMUNE ∧ inGrid g p := by
  intro p hp
  obtain ⟨_, _, w, hw, hin, hout⟩ := setTotalAsImmune_stamps g t prev
  rw [List.nil_append] at hw
  rw [hw] at hp
  obtain ⟨hb, hv⟩ := hin p hp
  refine ⟨hv, ?_⟩
  unfold inGrid at hb ⊢
  rwa [clearCells_rows, clearCells_cols] at hb

/-- C4: `setTotalAsImmune` first sets every in-bounds cell of the previous
immune list to `DEAD` unconditionally (so any previous cell not re-stamped ends
up `DEAD`), then stamps the new total as `IMMUNE` on exactly the returned
cells; consequently after a second call, no cell of the first call's returned
set that lies outside the second call's returned set is still `IMMUNE`. -/
theorem setTotalAsImmune_replacement (g : Grid) (prev : List Cell) (t1 t2 : Nat) :
    (∀ p ∈ prev, inGrid g p → p ∉ (setTotalAsImmune g t1 prev).2 →
      (setTotalAsImmune g t1 prev).1.cell p.1 p.2 = DEAD) ∧
    (∀ p ∈ (setTotalAsImmune g t1 prev).2,
      (setTotalAsImmune g t1 prev).1.cell p.1 p.2 = IMMUNE) ∧
    (∀ p ∈ (setTotalAsImmune g t1 prev).2,
      p ∉ (setTotalAsImmune (setTotalAsImmune g t1 prev).1 t2
            (setTotalAsImmune g t1 prev).2).2 →
      (setTotalAsImmune (setTotalAsImmune g t1 prev).1 t2
        (setTotalAsImmune g t1 prev).2).1.cell p.1 p.2 ≠ IMMUNE) := by
  refine ⟨setTotalAsImmune_clears g t1 prev,
    fun p hp => (setTotalAsImmune_immune g t1 prev p hp).1, ?_⟩
  intro p hp hnot
  have hb : inGrid (setTotalAsImmune g t1 prev).1 p := by
    have hg := (setTotalAsImmune_immune g t1 prev p hp).2
    unfold inGrid at hg ⊢
    rwa [setTotalAsImmune_rows, setTotalAsImmune_cols]
  have hd := setTotalAsImmune_clears (setTotalAsImmune g t1 prev).1 t2
    (setTotalAsImmune g t1 prev).2 p hp hb hnot
  rw [hd]
  decide

set_option maxRecDepth 4000 in
/-- Witness for C4: re-stamping the total 2 over the total 1 on the 55×182
grid leaves the cell `(40, 174)` of the first rendering non-`IMMUNE`. -/
theorem setTotalAsImmune_replacement_witness :
    (setTotalAsImmune (setTotalAsImmune setupGrid 1 []).1 2
      (setTotalAsImmune setupGrid 1 []).2).1.cell 40 174 ≠ IMMUNE :=
  (setTotalAsImmune_replacement setupGrid [] 1 2).2.2 (40, 174)
    (by decide) (by decide)

/-- C5: the one-shot expiry callback sets the tracked cell to `ALIVE` exactly
when the cell's grid state at firing time still equals the state it was stamped
with; if the state was changed beforehand the grid is left entirely unchanged
(the revert is silently skipped); in both cases every tracked entry at the
cell's coordinates is removed from the list while entries at other coordinates
are kept. -/
theorem expireTrackedCell_props (g : Grid) (pending : List Cell) (cell : Cell)
    (stamped : CellState) :
    (g.cell cell.1 cell.2 = stamped →
      (expireTrackedCell g pending cell stamped).1.cell cell.1 cell.2 = ALIVE) ∧
    (g.cell cell.1 cell.2 ≠ stamped →
      (expireTrackedCell g pending cell stamped).1 = g) ∧
    (∀ q ∈ (expireTrackedCell g pending cell stamped).2,
      ¬(q.1 = cell.1 ∧ q.2 = cell.2)) ∧
    (∀ q ∈ pending, ¬(q.1 = cell.1 ∧ q.2 = cell.2) →
      q ∈ (expireTrackedCell g pending cell stamped).2) := by
  refine ⟨?_, ?_, ?_, ?_⟩
  · intro h
    show (if g.cell cell.1 cell.2 = stamped then setCell g cell.1 cell.2 ALIVE
      else g).cell cell.1 cell.2 = ALIVE
    rw [if_pos h, setCell_cell, if_pos ⟨rfl, rfl⟩]
  · intro h
    show (if g.cell cell.1 cell.2 = stamped then setCell g cell.1 cell.2 ALIVE
      else g) = g
    rw [if_neg h]
  · intro q hq
    exact of_decide_eq_true (List.mem_filter.mp hq).2
  · intro q hq h
    exact List.mem_filter.mpr ⟨hq, decide_eq_true h⟩

/-- Witness for C5: firing the timer on the stamped `PENDING` center of
`exampleGridP` reverts it to `ALIVE`. -/
theorem expireTrackedCell_props_witness :
    (expireTrackedCell exampleGridP [(1, 1), (0, 0)] (1, 1) PENDING).1.cell 1 1 =
      ALIVE :=
  (expireTrackedCell_props exampleGridP [(1, 1), (0, 0)] (1, 1) PENDING).1
    (by decide)

/-- C10: the doubled glyph tables equal the image of the small tables under 2x2
pixel expansion: a cell is in `digitsDoubled d` (resp. `symbolDoubled`) exactly
when it is one of the four offsets `(2r-1, 2c-1)`, `(2r-1, 2c)`, `(2r, 2c-1)`,
`(2r, 2c)` of some pixel `(r, c)` of `digits d` (resp. `symbols0`). -/
theorem doubled_glyphs_expand (d : Nat) (p : Cell) :
    (p ∈ digitsDoubled d ↔ ∃ q ∈ digits d,
      p = (q.1 * 2 - 1, q.2 * 2 - 1) ∨ p = (q.1 * 2 - 1, q.2 * 2) ∨
      p = (q.1 * 2, q.2 * 2 - 1) ∨ p = (q.1 * 2, q.2 * 2)) ∧
    (p ∈ symbolDoubled ↔ ∃ q ∈ symbols0,
      p = (q.1 * 2 - 1, q.2 * 2 - 1) ∨ p = (q.1 * 2 - 1, q.2 * 2) ∨
      p = (q.1 * 2, q.2 * 2 - 1) ∨ p = (q.1 * 2, q.2 * 2)) := by
  constructor <;>
    simp [digitsDoubled, symbolDoubled, doublePixel, List.mem_flatMap]

theorem placementLoopGo_spec (cand : Nat → Int × Int) (ov : Int × Int → Bool) :
    ∀ left attempts : Nat, attempts + left = 50 → attempts < 50 →
      (placementLoopGo cand ov attempts left).2 ≤ 50 ∧
      attempts < (placementLoopGo cand ov attempts left).2 ∧
      (placementLoopGo cand ov attempts left).1 =
        cand ((placementLoopGo cand ov attempts left).2 - 1) ∧
      ((∀ i, ov (cand i) = true) →
        (placementLoopGo cand ov attempts left).2 = 50) := by
  intro left
  induction left with
  | zero => intro attempts ht hlt; omega
  | succ n ih =>
    intro attempts ht hlt
    simp only [placementLoopGo]
    by_cases hc : ov (cand attempts) = true ∧ attempts + 1 < 50
    · rw [if_pos hc]
      obtain ⟨a1, a2, a3, a4⟩ := ih (attempts + 1) (by omega) hc.2
      exact ⟨a1, by omega, a3, a4⟩
    · rw [if_neg hc]
      refine ⟨by omega, by omega, by rw [Nat.add_sub_cancel], ?_⟩
      intro hall
      have h5 : ¬(attempts + 1 < 50) := fun hlt2 => hc ⟨hall attempts, hlt2⟩
      show attempts + 1 = 50
      omega

/-- C7 (amended): the immune-aware variant's placement search makes at most 50
attempts and always accepts the last sampled candidate — even when every
candidate overlaps the immune set, in which case it returns the 50th sample.
The exclusion-zone variant (`index.tsx`) has no attempt cap: whenever its loop
exits, the accepted candidate is outside the exclusion zone, so an in-zone
candidate is never accepted no matter how many attempts have run. -/
theorem placement_search_props :
    (∀ (cand : Nat → Int × Int) (ov : Int × Int → Bool),
      (placementLoop cand ov).2 ≤ 50 ∧
      (placementLoop cand ov).1 = cand ((placementLoop cand ov).2 - 1) ∧
      ((∀ i, ov (cand i) = true) → placementLoop cand ov = (cand 49, 50))) ∧
    (∀ (cand : Nat → Int × Int) (k fuel : Nat) (p : Int × Int),
      placementLoopV1 cand k fuel = some p → inExcludeZoneV1 p = false) := by
  constructor
  · intro cand ov
    unfold placementLoop
    obtain ⟨a1, a2, a3, a4⟩ := placementLoopGo_spec cand ov 50 0 rfl (by omega)
    refine ⟨a1, a3, ?_⟩
    intro hall
    have h50 := a4 hall
    have hfst : (placementLoopGo cand ov 0 50).1 = cand 49 := by
      rw [a3, h50]
    rw [Prod.ext_iff]
    exact ⟨hfst, h50⟩
  · intro cand k fuel
    induction fuel generalizing k with
    | zero => intro p h; cases h
    | succ n ih =>
      intro p h
      simp only [placementLoopV1] at h
      by_cases hz : inExcludeZoneV1 (cand k) = true
      · rw [if_pos hz] at h
        exact ih (k + 1) p h
      · rw [if_neg hz] at h
        obtain rfl : cand k = p := Option.some.inj h
        simpa using hz

/-- Counterexample to C7 as stated: in the `index.tsx` variant, with every
sampled candidate equal to `(40, 150)` (inside the exclusion zone, reachable
from `Math.random()`), the placement loop accepts nothing within 50 attempts —
or 51 — so the search is not bounded by a 50-attempt cap and no last candidate
is accepted when the claimed cap would be exhausted. -/
theorem placement_uncapped_counterexample :
    placementLoopV1 (fun _ => (40, 150)) 0 50 = none ∧
    placementLoopV1 (fun _ => (40, 150)) 0 51 = none :=
  ⟨by decide, by decide⟩

/-- Witness for C7: a constantly-overlapping candidate stream makes the capped
search return its 50th sample, and a loop exit in the other variant yields an
out-of-zone candidate. -/
theorem placement_search_props_witness :
    placementLoop (fun _ => ((3 : Int), (4 : Int))) (fun _ => true) = ((3, 4), 50) ∧
    inExcludeZoneV1 (5, 5) = false :=
  ⟨(placement_search_props.1 (fun _ => (3, 4)) (fun _ => true)).2.2 (fun _ => rfl),
   placement_search_props.2 (fun _ => (5, 5)) 0 1 (5, 5) (by decide)⟩

/-- Counterexample to C6 as stated: a donation whose floored amount is `0`
(a non-positive raw amount) still produces a stamp — on the 55×182 dead grid,
with the (immune-free) placement accepting anchor `(10, 10)`, the handler
writes 25 cells (the dollar sign and the digit 0). -/
theorem donation_zero_stamps :
    (donationHandler setupGrid [] 0 (fun _ => (10, 10))).2.length = 25 := by
  decide

/-- C6 (amended): the initial-total handler treats an absent or zero total as a
no-op (truthiness guard), but the donation handler has no positivity or
presence guard: it stamps the floored amount unconditionally, so a donation of
amount 0 writes a non-empty set of `PENDING` cells (the "$0" rendering). -/
theorem nonpositive_event_handling :
    (∀ (g : Grid) (hs : Bool),
      initialTotalHandler g none hs = (g, [], hs) ∧
      initialTotalHandler g (some 0) hs = (g, [], hs)) ∧
    ((donationHandler setupGrid [] 0 (fun _ => (10, 10))).2 ≠ [] ∧
      ∀ p ∈ (donationHandler setupGrid [] 0 (fun _ => (10, 10))).2,
        (donationHandler setupGrid [] 0 (fun _ => (10, 10))).1.cell p.1 p.2 =
          PENDING) := by
  refine ⟨?_, by decide⟩
  intro g hs
  constructor
  · rfl
  · simp [initialTotalHandler]

/-- Witness for C6: one of the 25 cells written for the zero-amount donation
holds `PENDING`. -/
theorem nonpositive_event_handling_witness :
    (donationHandler setupGrid [] 0 (fun _ => (10, 10))).1.cell 10 12 = PENDING :=
  nonpositive_event_handling.2.2 (10, 12) (by decide)

theorem iteAD_eq_alive (P : Prop) [Decidable P] :
    ((if P then ALIVE else DEAD) = ALIVE) ↔ P := by
  split_ifs with h <;> simp [h]

theorem iteAD_eq_dead (P : Prop) [Decidable P] :
    ((if P then ALIVE else DEAD) = DEAD) ↔ ¬P := by
  split_ifs with h <;> simp [h]

theorem iteAD_eq_pending (P : Prop) [Decidable P] :
    ((if P then ALIVE else DEAD) = PENDING) ↔ False := by
  split_ifs with h <;> simp [h]

theorem iteAD_eq_initial (P : Prop) [Decidable P] :
    ((if P then ALIVE else DEAD) = INITIAL) ↔ False := by
  split_ifs with h <;> simp [h]

theorem iteAD_eq_immune (P : Prop) [Decidable P] :
    ((if P then ALIVE else DEAD) = IMMUNE) ↔ False := by
  split_ifs with h <;> simp [h]

set_option maxHeartbeats 1000000 in
theorem hBlinker_count (rows cols : Nat) (r c : Int)
    (h1 : 1 ≤ r) (h2 : r + 2 ≤ (rows : Int)) (h3 : 1 ≤ c) (h4 : c + 2 ≤ (cols : Int))
    (i j : Int) :
    countLiveNeighbors (hBlinker rows cols r c) i j =
      (if i = r ∧ j = c then 2
       else if i = r ∧ (j = c - 2 ∨ j = c - 1 ∨ j = c + 1 ∨ j = c + 2) then 1
       else if (i = r - 1 ∨ i = r + 1) ∧ j = c then 3
       else if (i = r - 1 ∨ i = r + 1) ∧ (j = c - 1 ∨ j = c + 1) then 2
       else if (i = r - 1 ∨ i = r + 1) ∧ (j = c - 2 ∨ j = c + 2) then 1
       else 0) := by
  have key : ∀ a b : Int, (0 ≤ a ∧ a < (rows : Int) ∧ 0 ≤ b ∧ b < (cols : Int) ∧
      a = r ∧ (b = c - 1 ∨ b = c ∨ b = c + 1)) ↔
      (a = r ∧ (b = c - 1 ∨ b = c ∨ b = c + 1)) := by
    intro a b
    constructor
    · exact fun h => h.2.2.2.2
    · intro h
      exact ⟨by omega, by omega, by omega, by omega, h⟩
  simp only [countLiveNeighbors, isAliveAt, hBlinker, toNat_decide,
    iteAD_eq_alive, key]
  obtain ⟨di, rfl⟩ : ∃ di, i = r + di := ⟨i - r, by ring⟩
  obtain ⟨dj, rfl⟩ : ∃ dj, j = c + dj := ⟨j - c, by ring⟩
  have l1 : (r + di - 1 = r) ↔ di = 1 := by omega
  have l2 : (r + di = r) ↔ di = 0 := by omega
  have l3 : (r + di + 1 = r) ↔ di = -1 := by omega
  have l4 : (r + di = r - 1) ↔ di = -1 := by omega
  have l5 : (r + di = r + 1) ↔ di = 1 := by omega
  have m1 : (c + dj - 1 = c - 1) ↔ dj = 0 := by omega
  have m2 : (c + dj - 1 = c) ↔ dj = 1 := by omega
  have m3 : (c + dj - 1 = c + 1) ↔ dj = 2 := by omega
  have m4 : (c + dj = c - 1) ↔ dj = -1 := by omega
  have m5 : (c + dj = c) ↔ dj = 0 := by omega
  have m6 : (c + dj = c + 1) ↔ dj = 1 := by omega
  have m7 : (c + dj + 1 = c - 1) ↔ dj = -2 := by omega
  have m8 : (c + dj + 1 = c) ↔ dj = -1 := by omega
  have m9 : (c + dj + 1 = c + 1) ↔ dj = 0 := by omega
  have m10 : (c + dj = c - 2) ↔ dj = -2 := by omega
  have m11 : (c + dj = c + 2) ↔ dj = 2 := by omega
  simp only [l1, l2, l3, l4, l5, m1, m2, m3, m4, m5, m6, m7, m8, m9, m10, m11]
  have hdicase : di = -1 ∨ di = 0 ∨ di = 1 ∨ (di ≤ -2 ∨ 2 ≤ di) := by omega
  have hdjcase : dj = -2 ∨ dj = -1 ∨ dj = 0 ∨ dj = 1 ∨ dj = 2 ∨
    (dj ≤ -3 ∨ 3 ≤ dj) := by omega
  rcases hdicase with rfl | rfl | rfl | hdifar <;>
    rcases hdjcase with rfl | rfl | rfl | rfl | rfl | hdjfar <;>
      first
        | decide
        | (iterate 13 rw [if_neg (by omega)])

set_option maxHeartbeats 1000000 in
theorem vBlinker_count (rows cols : Nat) (r c : Int)
    (h1 : 1 ≤ r) (h2 : r + 2 ≤ (rows : Int)) (h3 : 1 ≤ c) (h4 : c + 2 ≤ (cols : Int))
    (i j : Int) :
    countLiveNeighbors (vBlinker rows cols r c) i j =
      (if i = r ∧ j = c then 2
       else if (i = r - 2 ∨ i = r - 1 ∨ i = r + 1 ∨ i = r + 2) ∧ j = c then 1
       else if i = r ∧ (j = c - 1 ∨ j = c + 1) then 3
       else if (i = r - 1 ∨ i = r + 1) ∧ (j = c - 1 ∨ j = c + 1) then 2
       else if (i = r - 2 ∨ i = r + 2) ∧ (j = c - 1 ∨ j = c + 1) then 1
       else 0) := by
  have key : ∀ a b : Int, (0 ≤ a ∧ a < (rows : Int) ∧ 0 ≤ b ∧ b < (cols : Int) ∧
      b = c ∧ (a = r - 1 ∨ a = r ∨ a = r + 1)) ↔
      (b = c ∧ (a = r - 1 ∨ a = r ∨ a = r + 1)) := by
    intro a b
    constructor
    · exact fun h => h.2.2.2.2
    · intro h
      exact ⟨by omega, by omega, by omega, by omega, h⟩
  simp only [countLiveNeighbors, isAliveAt, vBlinker, toNat_decide,
    iteAD_eq_alive, key]
  obtain ⟨di, rfl⟩ : ∃ di, i = r + di := ⟨i - r, by ring⟩
  obtain ⟨dj, rfl⟩ : ∃ dj, j = c + dj := ⟨j - c, by ring⟩
  have l1 : (r + di - 1 = r - 1) ↔ di = 0 := by omega
  have l2 : (r + di - 1 = r) ↔ di = 1 := by omega
  have l3 : (r + di - 1 = r + 1) ↔ di = 2 := by omega
  have l4 : (r + di = r - 1) ↔ di = -1 := by omega
  have l5 : (r + di = r) ↔ di = 0 := by omega
  have l6 : (r + di = r + 1) ↔ di = 1 := by omega
  have l7 : (r + di + 1 = r - 1) ↔ di = -2 := by omega
  have l8 : (r + di + 1 = r) ↔ di = -1 := by omega
  have l9 : (r + di + 1 = r + 1) ↔ di = 0 := by omega
  have l10 : (r + di = r - 2) ↔ di = -2 := by omega
  have l11 : (r + di = r + 2) ↔ di = 2 := by omega
  have m1 : (c + dj - 1 = c) ↔ dj = 1 := by omega
  have m2 : (c + dj = c) ↔ dj = 0 := by omega
  have m3 : (c + dj + 1 = c) ↔ dj = -1 := by omega
  have m4 : (c + dj = c - 1) ↔ dj = -1 := by omega
  have m5 : (c + dj = c + 1) ↔ dj = 1 := by omega
  simp only [l1, l2, l3, l4, l5, l6, l7, l8, l9, l10, l11, m1, m2, m3, m4, m5]
  have hdicase : di = -2 ∨ di = -1 ∨ di = 0 ∨ di = 1 ∨ di = 2 ∨
    (di ≤ -3 ∨ 3 ≤ di) := by omega
  have hdjcase : dj = -1 ∨ dj = 0 ∨ dj = 1 ∨ (dj ≤ -2 ∨ 2 ≤ dj) := by omega
  rcases hdicase with rfl | rfl | rfl | rfl | rfl | hdifar <;>
    rcases hdjcase with rfl | rfl | rfl | hdjfar <;>
      first
        | decide
        | (iterate 13 rw [if_neg (by omega)])

set_option maxHeartbeats 2000000 in
theorem updateGrid_hBlinker (rows cols : Nat) (r c : Int)
    (h1 : 1 ≤ r) (h2 : r + 2 ≤ (rows : Int)) (h3 : 1 ≤ c) (h4 : c + 2 ≤ (cols : Int)) :
    updateGrid (hBlinker rows cols r c) = vBlinker rows cols r c := by
  refine Grid.ext rfl rfl ?_
  funext i j
  show (if 0 ≤ i ∧ i < ((hBlinker rows cols r c).rows : Int) ∧ 0 ≤ j ∧
      j < ((hBlinker rows cols r c).cols : Int) then _ else _) =
    (vBlinker rows cols r c).cell i j
  by_cases hb : 0 ≤ i ∧ i < ((hBlinker rows cols r c).rows : Int) ∧ 0 ≤ j ∧
      j < ((hBlinker rows cols r c).cols : Int)
  · rw [if_pos hb]
    rw [hBlinker_count rows cols r c h1 h2 h3 h4 i j]
    simp only [hBlinker, vBlinker, iteAD_eq_alive, iteAD_eq_dead,
      iteAD_eq_pending, iteAD_eq_initial, iteAD_eq_immune, false_or,
      if_false] at hb ⊢
    split_ifs <;> first | rfl | (exfalso; omega) | simp_all
  · rw [if_neg hb]
    simp only [hBlinker, vBlinker] at hb ⊢
    split_ifs <;> first | rfl | (exfalso; omega)

set_option maxHeartbeats 2000000 in
theorem updateGrid_vBlinker (rows cols : Nat) (r c : Int)
    (h1 : 1 ≤ r) (h2 : r + 2 ≤ (rows : Int)) (h3 : 1 ≤ c) (h4 : c + 2 ≤ (cols : Int)) :
    updateGrid (vBlinker rows cols r c) = hBlinker rows cols r c := by
  refine Grid.ext rfl rfl ?_
  funext i j
  show (if 0 ≤ i ∧ i < ((vBlinker rows cols r c).rows : Int) ∧ 0 ≤ j ∧
      j < ((vBlinker rows cols r c).cols : Int) then _ else _) =
    (hBlinker rows cols r c).cell i j
  by_cases hb : 0 ≤ i ∧ i < ((vBlinker rows cols r c).rows : Int) ∧ 0 ≤ j ∧
      j < ((vBlinker rows cols r c).cols : Int)
  · rw [if_pos hb]
    rw [vBlinker_count rows cols r c h1 h2 h3 h4 i j]
    simp only [hBlinker, vBlinker, iteAD_eq_alive, iteAD_eq_dead,
      iteAD_eq_pending, iteAD_eq_initial, iteAD_eq_immune, false_or,
      if_false] at hb ⊢
    split_ifs <;> first | rfl | (exfalso; omega) | simp_all
  · rw [if_neg hb]
    simp only [hBlinker, vBlinker] at hb ⊢
    split_ifs <;> first | rfl | (exfalso; omega)

/-- C8: a grid holding exactly a horizontal row of three `ALIVE` cells centered
at `(r, c)`, away from the boundary, becomes the vertical three-cell blinker
centered on the same middle cell after one `updateGrid`, and two applications
return the original horizontal configuration. -/
theorem blinker_oscillates (rows cols : Nat) (r c : Int)
    (h1 : 1 ≤ r) (h2 : r + 2 ≤ (rows : Int)) (h3 : 1 ≤ c) (h4 : c + 2 ≤ (cols : Int)) :
    updateGrid (hBlinker rows cols r c) = vBlinker rows cols r c ∧
    updateGrid (updateGrid (hBlinker rows cols r c)) = hBlinker rows cols r c := by
  have e1 := updateGrid_hBlinker rows cols r c h1 h2 h3 h4
  have e2 := updateGrid_vBlinker rows cols r c h1 h2 h3 h4
  exact ⟨e1, by rw [e1, e2]⟩

/-- Witness for C8: the blinker centered at `(2, 2)` of a 5×5 grid oscillates. -/
theorem blinker_oscillates_witness :
    updateGrid (hBlinker 5 5 2 2) = vBlinker 5 5 2 2 ∧
    updateGrid (updateGrid (hBlinker 5 5 2 2)) = hBlinker 5 5 2 2 :=
  blinker_oscillates 5 5 2 2 (by decide) (by decide) (by decide) (by decide)

end ConwayChannel
